import Mathlib

/-!
Shallow embedding of the dialect layer of the gorp fork (dialect.go).

Each Go dialect struct becomes a Lean structure and each of its methods a
Lean function translated line by line from the source.  Conventions:

* Go `string` is Lean `String`; Go `int` is Lean `Int` (the claims never
  exercise machine overflow).
* A Go `panic(msg)` is modelled as `Except.error msg`; a function that can
  panic returns `Except String String` and a normal return is `Except.ok`.
* `reflect.Type` is modelled by the inductive `GoType` below: one
  constructor per `reflect.Kind` the code switches on, plus `named` for
  struct types that are only inspected through `Name()` (such as
  `time.Time` and the `sql.Null*` wrappers).
* `strings.ToLower` / `strings.ToUpper` / `strings.TrimSpace` are modelled
  on the ASCII range (the identifiers the library quotes are ASCII).
-/

namespace Gorp

/-- Model of the `reflect.Type` values reaching `ToSqlType`: one constructor
per kind the Go switch inspects, and `named` for struct kinds whose
`Name()` drives the second switch (e.g. `Time`, `NullInt64`). -/
inductive GoType where
  | bool | int | int8 | int16 | int32 | int64
  | uint | uint8 | uint16 | uint32 | uint64
  | float32 | float64
  | string
  | ptr (elem : GoType)
  | slice (elem : GoType)
  | named (n : String)
deriving DecidableEq

/-- `reflect.Type.Name()` as the dialect code consults it: only `named`
struct types carry a name that the `Name()` switches can match (the
primitive kinds return earlier, and Go's `Name()` for slices is empty). -/
def GoType.name : GoType → String
  | .named n => n
  | _ => ""

/-- ASCII model of Go `strings.ToLower`. -/
def goToLower (s : String) : String := String.mk (s.toList.map Char.toLower)

/-- ASCII model of Go `strings.ToUpper`. -/
def goToUpper (s : String) : String := String.mk (s.toList.map Char.toUpper)

/-- ASCII white space recognised by Go `unicode.IsSpace`. -/
def goIsSpace (c : Char) : Bool :=
  c = ' ' || c = '\t' || c = '\n' || c = '\x0b' || c = '\x0c' || c = '\r'

/-- Model of Go `strings.TrimSpace` (ASCII range). -/
def trimSpace (s : String) : String :=
  String.mk (((s.toList.dropWhile goIsSpace).reverse.dropWhile goIsSpace).reverse)

/-- Model of Go `strings.Replace(f, "]", "]]", -1)`. -/
def escapeRBrackets (s : String) : String :=
  String.mk (s.toList.flatMap fun c => if c = ']' then [']', ']'] else [c])

/-- Go `fmt` rendering of a `rows.Err()` value under the `%s` verb:
a nil error prints as `%!s(<nil>)`, a non-nil error prints its message. -/
def errString : Option String → String
  | none => "%!s(<nil>)"
  | some e => e

/-- The piece of `ColumnMap` the dialect layer touches. -/
structure ColumnMap where
  ColumnName : String

/-- Result of `exec.Exec`: `LastInsertId()` may itself fail. -/
structure SqlResult where
  lastInsertId : Except String Int

/-- Result rows of `exec.query`: the scanned values in order, plus the
error `rows.Err()` reports once iteration stops. -/
structure Rows where
  values : List Int
  err : Option String

/-- The executor contract the insert helpers consume: the outcome of
`Exec` and the outcome of `query` for the statement at hand. -/
structure SqlExecutor where
  execResult : Except String SqlResult
  queryResult : Except String Rows

/-- dialect.go `standardInsertAutoIncr`: run the INSERT through `Exec`,
propagate its error unchanged, otherwise read `LastInsertId()`. -/
def standardInsertAutoIncr (exec : SqlExecutor) (_insertSql : String) : Except String Int :=
  match exec.execResult with
  | .error e => .error e
  | .ok res => res.lastInsertId

/-! ### sqlite3 -/

structure SqliteDialect where
  suffix : String

def SqliteDialect.QuerySuffix (_ : SqliteDialect) : String := ";"

def SqliteDialect.ToSqlType (d : SqliteDialect) (val : GoType) (maxsize : Int)
    (isAutoIncr : Bool) : String :=
  match val with
  | .ptr e => SqliteDialect.ToSqlType d e maxsize isAutoIncr
  | .bool => "integer"
  | .int | .int8 | .int16 | .int32 | .int64
  | .uint | .uint8 | .uint16 | .uint32 | .uint64 => "integer"
  | .float64 | .float32 => "real"
  | .slice .uint8 => "blob"
  | v =>
    match v.name with
    | "NullInt64" => "integer"
    | "NullFloat64" => "real"
    | "NullBool" => "integer"
    | "Time" => "datetime"
    | _ => "varchar(" ++ toString (if maxsize < 1 then (255 : Int) else maxsize) ++ ")"

def SqliteDialect.AutoIncrStr (_ : SqliteDialect) : String := "autoincrement"

def SqliteDialect.AutoIncrBindValue (_ : SqliteDialect) : String := "null"

def SqliteDialect.AutoIncrInsertSuffix (_ : SqliteDialect) (_ : ColumnMap) : String := ""

def SqliteDialect.CreateTableSuffix (d : SqliteDialect) : String := d.suffix

def SqliteDialect.TruncateClause (_ : SqliteDialect) : String := "delete from"

def SqliteDialect.BindVar (_ : SqliteDialect) (_ : Int) : String := "?"

def SqliteDialect.InsertAutoIncr (_ : SqliteDialect) (exec : SqlExecutor)
    (insertSql : String) : Except String Int :=
  standardInsertAutoIncr exec insertSql

def SqliteDialect.QuoteField (_ : SqliteDialect) (f : String) : String :=
  "\"" ++ f ++ "\""

def SqliteDialect.IfIndexExists (_ : SqliteDialect) (_ _ _ : String) :
    Except String String :=
  .error "IfIndexExists not implemented for SqliteDialect"

def SqliteDialect.BuildIndexName (_ : SqliteDialect) (_ _ : String) :
    Except String String :=
  .error "BuildIndexName not implemented for SqliteDialect"

/-! ### PostgreSQL -/

structure PostgresDialect where
  suffix : String

def PostgresDialect.QuerySuffix (_ : PostgresDialect) : String := ";"

def PostgresDialect.ToSqlType (d : PostgresDialect) (val : GoType) (maxsize : Int)
    (isAutoIncr : Bool) : String :=
  match val with
  | .ptr e => PostgresDialect.ToSqlType d e maxsize isAutoIncr
  | .bool => "boolean"
  | .int | .int8 | .int16 | .int32
  | .uint | .uint8 | .uint16 | .uint32 =>
    if isAutoIncr then "serial" else "integer"
  | .int64 | .uint64 =>
    if isAutoIncr then "bigserial" else "bigint"
  | .float64 => "double precision"
  | .float32 => "real"
  | .slice .uint8 => "bytea"
  | v =>
    match v.name with
    | "NullInt64" => "bigint"
    | "NullFloat64" => "double precision"
    | "NullBool" => "boolean"
    | "Time" | "NullTime" => "timestamp with time zone"
    | _ => "varchar(" ++ toString (if maxsize < 1 then (255 : Int) else maxsize) ++ ")"

def PostgresDialect.AutoIncrStr (_ : PostgresDialect) : String := ""

def PostgresDialect.AutoIncrBindValue (_ : PostgresDialect) : String := "default"

def PostgresDialect.AutoIncrInsertSuffix (_ : PostgresDialect) (col : ColumnMap) : String :=
  " returning " ++ col.ColumnName

def PostgresDialect.CreateTableSuffix (d : PostgresDialect) : String := d.suffix

def PostgresDialect.TruncateClause (_ : PostgresDialect) : String := "truncate"

def PostgresDialect.BindVar (_ : PostgresDialect) (i : Int) : String :=
  "$" ++ toString (i + 1)

/-- dialect.go `PostgresDialect.InsertAutoIncrToTarget`: run the INSERT as a
query; a query error is returned unchanged; zero rows is an error built from
`rows.Err()`; otherwise the first value is scanned into the target
(`Except.ok` carries the assigned value); a second row is an error; after a
single row the final `rows.Err()` is returned. -/
def PostgresDialect.InsertAutoIncrToTarget (_ : PostgresDialect) (exec : SqlExecutor)
    (insertSql : String) : Except String Int :=
  match exec.queryResult with
  | .error e => .error e
  | .ok rows =>
    match rows.values with
    | [] =>
      .error ("No serial value returned for insert: " ++ insertSql ++
        " Encountered error: " ++ errString rows.err)
    | [v] =>
      match rows.err with
      | some e => .error e
      | none => .ok v
    | _ :: _ :: _ =>
      .error ("more than two serial value returned for insert: " ++ insertSql)

def PostgresDialect.QuoteField (_ : PostgresDialect) (f : String) : String :=
  "\"" ++ goToLower f ++ "\""

def PostgresDialect.QuoteString (_ : PostgresDialect) (f : String) : String :=
  "\x27" ++ goToLower f ++ "\x27"

def PostgresDialect.BuildIndexName (_ : PostgresDialect) (table index : String) : String :=
  if trimSpace table = "" then index
  else "ix_" ++ table ++ "_" ++ index

def PostgresDialect.IfIndexExists (d : PostgresDialect) (table index schema : String) :
    String :=
  let sql :=
    "select\n\t\t    a.attname as ColumnName\n\t\tfrom\n\t\t    pg_class t,\n\t\t    pg_class i,\n\t\t    pg_index ix,\n\t\t    pg_attribute a,\n\t\t    pg_namespace n\n\t\twhere\n\t\t    t.oid = ix.indrelid\n\t\t    and i.oid = ix.indexrelid\n\t\t    and a.attrelid = t.oid\n\t\t    and a.attnum = ANY(ix.indkey)\n\t\t    and t.relkind = \x27r\x27\n\t\t    and t.relname = "
      ++ d.QuoteString table
      ++ "\n\t\t    and i.relname = "
      ++ d.QuoteString (d.BuildIndexName table index)
  let sql :=
    if schema ≠ "" then
      sql ++ "\n\t\t    and n.nspname = " ++ d.QuoteString schema
    else sql
  sql ++ "\n\t\t    and n.oid = t.relnamespace\n\t\torder by\n\t\t    t.relname,\n\t\t    i.relname"
    ++ d.QuerySuffix

/-! ### MySQL -/

structure MySQLDialect where
  Engine : String
  Encoding : String

def MySQLDialect.QuerySuffix (_ : MySQLDialect) : String := ";"

def MySQLDialect.ToSqlType (d : MySQLDialect) (val : GoType) (maxsize : Int)
    (isAutoIncr : Bool) : String :=
  match val with
  | .ptr e => MySQLDialect.ToSqlType d e maxsize isAutoIncr
  | .bool => "boolean"
  | .int8 => "tinyint"
  | .uint8 => "tinyint unsigned"
  | .int16 => "smallint"
  | .uint16 => "smallint unsigned"
  | .int | .int32 => "int"
  | .uint | .uint32 => "int unsigned"
  | .int64 => "bigint"
  | .uint64 => "bigint unsigned"
  | .float64 | .float32 => "double"
  | .slice .uint8 => "mediumblob"
  | v =>
    match v.name with
    | "NullInt64" => "bigint"
    | "NullFloat64" => "double"
    | "NullBool" => "tinyint"
    | "Time" => "datetime"
    | _ => "varchar(" ++ toString (if maxsize < 1 then (255 : Int) else maxsize) ++ ")"

def MySQLDialect.AutoIncrStr (_ : MySQLDialect) : String := "auto_increment"

def MySQLDialect.AutoIncrBindValue (_ : MySQLDialect) : String := "null"

def MySQLDialect.AutoIncrInsertSuffix (_ : MySQLDialect) (_ : ColumnMap) : String := ""

/-- dialect.go `MySQLDialect.CreateTableSuffix`: panics (here `Except.error`)
when `Engine` or `Encoding` is empty, naming each missing field in the
message; otherwise returns the engine/charset clause. -/
def MySQLDialect.CreateTableSuffix (d : MySQLDialect) : Except String String :=
  if d.Engine = "" ∨ d.Encoding = "" then
    let msg := "gorp - undefined"
    let msg := if d.Engine = "" then msg ++ " MySQLDialect.Engine" else msg
    let msg := if d.Engine = "" ∧ d.Encoding = "" then msg ++ "," else msg
    let msg := if d.Encoding = "" then msg ++ " MySQLDialect.Encoding" else msg
    .error (msg ++ ". Check that your MySQLDialect was correctly initialized when declared.")
  else
    .ok (" engine=" ++ d.Engine ++ " charset=" ++ d.Encoding)

def MySQLDialect.TruncateClause (_ : MySQLDialect) : String := "truncate"

def MySQLDialect.BindVar (_ : MySQLDialect) (_ : Int) : String := "?"

def MySQLDialect.InsertAutoIncr (_ : MySQLDialect) (exec : SqlExecutor)
    (insertSql : String) : Except String Int :=
  standardInsertAutoIncr exec insertSql

def MySQLDialect.QuoteField (_ : MySQLDialect) (f : String) : String :=
  "`" ++ f ++ "`"

def MySQLDialect.IfIndexExists (_ : MySQLDialect) (table index schema : String) : String :=
  let sql := "select COLUMN_NAME as ColumnName " ++
    "from INFORMATION_SCHEMA.STATISTICS " ++
    "where table_name = \x27" ++ table ++ "\x27 " ++
    "and index_name = \x27" ++ index ++ "\x27 "
  let sql :=
    if schema ≠ "" then sql ++ "and table_schema = \x27" ++ schema ++ "\x27"
    else sql
  sql ++ "order by SEQ_IN_INDEX asc"

def MySQLDialect.BuildIndexName (_ : MySQLDialect) (_table index : String) : String :=
  index

/-! ### Sql Server -/

structure SqlServerDialect where
  Version : String

def SqlServerDialect.QuerySuffix (_ : SqlServerDialect) : String := ";"

def SqlServerDialect.ToSqlType (d : SqlServerDialect) (val : GoType) (maxsize : Int)
    (isAutoIncr : Bool) : String :=
  match val with
  | .ptr e => SqlServerDialect.ToSqlType d e maxsize isAutoIncr
  | .bool => "bit"
  | .int8 => "tinyint"
  | .uint8 => "smallint"
  | .int16 => "smallint"
  | .uint16 => "int"
  | .int | .int32 => "int"
  | .uint | .uint32 => "bigint"
  | .int64 => "bigint"
  | .uint64 => "numeric(20,0)"
  | .float32 => "float(24)"
  | .float64 => "float(53)"
  | .slice .uint8 => "varbinary"
  | v =>
    match v.name with
    | "NullInt64" => "bigint"
    | "NullFloat64" => "float(53)"
    | "NullBool" => "bit"
    | "NullTime" | "Time" => if d.Version = "2005" then "datetime" else "datetime2"
    | _ =>
      if maxsize < 1 then
        if d.Version = "2005" then "nvarchar(255)" else "nvarchar(max)"
      else "nvarchar(" ++ toString maxsize ++ ")"

def SqlServerDialect.AutoIncrStr (_ : SqlServerDialect) : String := "identity(0,1)"

def SqlServerDialect.AutoIncrBindValue (_ : SqlServerDialect) : String := ""

def SqlServerDialect.AutoIncrInsertSuffix (_ : SqlServerDialect) (_ : ColumnMap) : String := ""

def SqlServerDialect.CreateTableSuffix (_ : SqlServerDialect) : String := ";"

def SqlServerDialect.TruncateClause (_ : SqlServerDialect) : String := "truncate table"

def SqlServerDialect.BindVar (_ : SqlServerDialect) (_ : Int) : String := "?"

def SqlServerDialect.InsertAutoIncr (_ : SqlServerDialect) (exec : SqlExecutor)
    (insertSql : String) : Except String Int :=
  standardInsertAutoIncr exec insertSql

def SqlServerDialect.QuoteField (_ : SqlServerDialect) (f : String) : String :=
  "[" ++ escapeRBrackets f ++ "]"

def SqlServerDialect.IfIndexExists (_ : SqlServerDialect) (_ _ _ : String) :
    Except String String :=
  .error "IfIndexExists not implemented for SqlServerDialect"

def SqlServerDialect.BuildIndexName (_ : SqlServerDialect) (_table index : String) : String :=
  index

/-! ### Oracle -/

structure OracleDialect

def OracleDialect.QuerySuffix (_ : OracleDialect) : String := ""

def OracleDialect.ToSqlType (d : OracleDialect) (val : GoType) (maxsize : Int)
    (isAutoIncr : Bool) : String :=
  match val with
  | .ptr e => OracleDialect.ToSqlType d e maxsize isAutoIncr
  | .bool => "boolean"
  | .int | .int8 | .int16 | .int32
  | .uint | .uint8 | .uint16 | .uint32 =>
    if isAutoIncr then "serial" else "integer"
  | .int64 | .uint64 =>
    if isAutoIncr then "bigserial" else "bigint"
  | .float64 => "double precision"
  | .float32 => "real"
  | .slice .uint8 => "bytea"
  | v =>
    match v.name with
    | "NullInt64" => "bigint"
    | "NullFloat64" => "double precision"
    | "NullBool" => "boolean"
    | "NullTime" | "Time" => "timestamp with time zone"
    | _ =>
      if maxsize > 0 then "varchar(" ++ toString maxsize ++ ")"
      else "text"

def OracleDialect.AutoIncrStr (_ : OracleDialect) : String := ""

def OracleDialect.AutoIncrBindValue (_ : OracleDialect) : String := "default"

def OracleDialect.AutoIncrInsertSuffix (_ : OracleDialect) (col : ColumnMap) : String :=
  " returning " ++ col.ColumnName

def OracleDialect.CreateTableSuffix (_ : OracleDialect) : String := ""

def OracleDialect.TruncateClause (_ : OracleDialect) : String := "truncate"

def OracleDialect.BindVar (_ : OracleDialect) (i : Int) : String :=
  ":" ++ toString (i + 1)

def OracleDialect.QuoteField (_ : OracleDialect) (f : String) : String :=
  "\"" ++ goToUpper f ++ "\""

def OracleDialect.IfIndexExists (_ : OracleDialect) (_ _ _ : String) :
    Except String String :=
  .error "IfIndexExists not implemented for OracleDialect"

def OracleDialect.BuildIndexName (_ : OracleDialect) (_table index : String) : String :=
  index

/-! ### Characterization constants for the index-existence queries

These constants name the fixed fragments of the generated introspection
SQL, so the theorems below can describe the query's shape: head, the
`i.relname` comparison, the optional `n.nspname` schema filter, and the
`order by` tail. -/

def pgIfIndexHead : String :=
  "select\n\t\t    a.attname as ColumnName\n\t\tfrom\n\t\t    pg_class t,\n\t\t    pg_class i,\n\t\t    pg_index ix,\n\t\t    pg_attribute a,\n\t\t    pg_namespace n\n\t\twhere\n\t\t    t.oid = ix.indrelid\n\t\t    and i.oid = ix.indexrelid\n\t\t    and a.attrelid = t.oid\n\t\t    and a.attnum = ANY(ix.indkey)\n\t\t    and t.relkind = \x27r\x27\n\t\t    and t.relname = "

def pgRelnameFilter : String := "\n\t\t    and i.relname = "

def pgNspnameFilter : String := "\n\t\t    and n.nspname = "

def pgIfIndexTail : String :=
  "\n\t\t    and n.oid = t.relnamespace\n\t\torder by\n\t\t    t.relname,\n\t\t    i.relname;"

def mysqlIfIndexHead : String :=
  "select COLUMN_NAME as ColumnName " ++
  "from INFORMATION_SCHEMA.STATISTICS " ++
  "where table_name = \x27"

def mysqlOrderSuffix : String := "order by SEQ_IN_INDEX asc"

end Gorp

namespace Gorp

/-- C1: for every zero-based bind position, SQLite, MySQL and SQL Server use
the positional placeholder "?", PostgreSQL uses "$" followed by the
one-based position, Oracle uses ":" followed by the one-based position, and
a 3-parameter statement under the PostgreSQL dialect therefore uses exactly
the placeholders $1, $2, $3 in left-to-right positional order. -/
theorem bindVar_placeholders (sq : SqliteDialect) (my : MySQLDialect)
    (ss : SqlServerDialect) (pg : PostgresDialect) (ora : OracleDialect) (i : Int) :
    sq.BindVar i = "?" ∧ my.BindVar i = "?" ∧ ss.BindVar i = "?" ∧
    pg.BindVar i = "$" ++ toString (i + 1) ∧
    ora.BindVar i = ":" ++ toString (i + 1) ∧
    ([0, 1, 2] : List Int).map pg.BindVar = ["$1", "$2", "$3"] :=
  ⟨rfl, rfl, rfl, rfl, rfl, rfl⟩

/-- C2: unsupported dialect methods abort instead of returning a string:
IfIndexExists aborts (modelled as `Except.error`) under SQLite, SQL Server
and Oracle for every argument triple, and BuildIndexName aborts under
SQLite; none of these calls yields `Except.ok`. -/
theorem unsupported_methods_abort (sq : SqliteDialect) (ss : SqlServerDialect)
    (ora : OracleDialect) (table index schema : String) :
    sq.IfIndexExists table index schema =
      Except.error "IfIndexExists not implemented for SqliteDialect" ∧
    ss.IfIndexExists table index schema =
      Except.error "IfIndexExists not implemented for SqlServerDialect" ∧
    ora.IfIndexExists table index schema =
      Except.error "IfIndexExists not implemented for OracleDialect" ∧
    sq.BuildIndexName table index =
      Except.error "BuildIndexName not implemented for SqliteDialect" :=
  ⟨rfl, rfl, rfl, rfl⟩

/-- C3: the autoincrement bind placeholder is empty exactly under SQL Server
(so the column is omitted from INSERT statements there); SQLite and MySQL
use the keyword "null" and PostgreSQL and Oracle use the keyword "default",
both non-empty. -/
theorem autoIncrBindValue_per_dialect (sq : SqliteDialect) (my : MySQLDialect)
    (ss : SqlServerDialect) (pg : PostgresDialect) (ora : OracleDialect) :
    ss.AutoIncrBindValue = "" ∧
    sq.AutoIncrBindValue = "null" ∧
    my.AutoIncrBindValue = "null" ∧
    pg.AutoIncrBindValue = "default" ∧
    ora.AutoIncrBindValue = "default" :=
  ⟨rfl, rfl, rfl, rfl, rfl⟩

/-- C4: identifier quoting is byte-exact per dialect: SQLite wraps in double
quotes, PostgreSQL wraps the lowercased name in double quotes, MySQL wraps
in backticks, Oracle wraps the uppercased name in double quotes, and SQL
Server wraps in square brackets after doubling every closing bracket
(illustrated on the concrete input "a]b"). -/
theorem quoteField_per_dialect (sq : SqliteDialect) (my : MySQLDialect)
    (ss : SqlServerDialect) (pg : PostgresDialect) (ora : OracleDialect) (f : String) :
    sq.QuoteField f = "\"" ++ f ++ "\"" ∧
    pg.QuoteField f = "\"" ++ goToLower f ++ "\"" ∧
    my.QuoteField f = "`" ++ f ++ "`" ∧
    ora.QuoteField f = "\"" ++ goToUpper f ++ "\"" ∧
    ss.QuoteField f = "[" ++ escapeRBrackets f ++ "]" ∧
    ss.QuoteField "a]b" = "[a]]b]" ∧
    pg.QuoteField "MyCol" = "\"mycol\"" ∧
    ora.QuoteField "MyCol" = "\"MYCOL\"" :=
  ⟨rfl, rfl, rfl, rfl, rfl, rfl, rfl, rfl⟩

/-- C10: for every dialect, pointer types are transparent to SQL type
mapping: ToSqlType on a pointer type equals ToSqlType on its element type
with the same maxsize and isAutoIncr arguments. -/
theorem toSqlType_ptr_transparent (sq : SqliteDialect) (my : MySQLDialect)
    (ss : SqlServerDialect) (pg : PostgresDialect) (ora : OracleDialect)
    (t : GoType) (m : Int) (b : Bool) :
    sq.ToSqlType (GoType.ptr t) m b = sq.ToSqlType t m b ∧
    pg.ToSqlType (GoType.ptr t) m b = pg.ToSqlType t m b ∧
    my.ToSqlType (GoType.ptr t) m b = my.ToSqlType t m b ∧
    ss.ToSqlType (GoType.ptr t) m b = ss.ToSqlType t m b ∧
    ora.ToSqlType (GoType.ptr t) m b = ora.ToSqlType t m b :=
  ⟨rfl, rfl, rfl, rfl, rfl⟩

/-- C5: the PostgreSQL index-existence query compares `i.relname` against
the quoted canonical BuildIndexName output (not the raw index argument) and
carries the `n.nspname` schema filter exactly when schema is non-empty; the
MySQL index-existence query selects the index's column names and ends with
an ascending order on the column position `SEQ_IN_INDEX`. -/
theorem ifIndexExists_query_shape (pgd : PostgresDialect) (my : MySQLDialect)
    (table index schema : String) :
    pgd.IfIndexExists table index schema =
      pgIfIndexHead ++ pgd.QuoteString table ++ pgRelnameFilter ++
        pgd.QuoteString (pgd.BuildIndexName table index) ++
        (if schema = "" then "" else pgNspnameFilter ++ pgd.QuoteString schema) ++
        pgIfIndexTail ∧
    my.IfIndexExists table index schema =
      mysqlIfIndexHead ++ table ++ "\x27 " ++ "and index_name = \x27" ++ index ++
        (if schema = "" then "\x27 "
         else "\x27 " ++ "and table_schema = \x27" ++ schema ++ "\x27") ++
        mysqlOrderSuffix := by
  constructor
  · by_cases h : schema = "" <;>
      simp [PostgresDialect.IfIndexExists, PostgresDialect.QuerySuffix, pgIfIndexHead,
        pgRelnameFilter, pgNspnameFilter, pgIfIndexTail, h, String.append_assoc]
  · by_cases h : schema = "" <;>
      simp [MySQLDialect.IfIndexExists, mysqlIfIndexHead, mysqlOrderSuffix, h,
        String.append_assoc]

/-- C6: BuildIndexName under PostgreSQL is the table-prefixed identifier
"ix_" ++ table ++ "_" ++ index when the table name is not blank, the bare
index name when the table name is blank or whitespace-only, and under
MySQL, SQL Server and Oracle it is the index name unchanged. -/
theorem buildIndexName_per_dialect (pg : PostgresDialect) (my : MySQLDialect)
    (ss : SqlServerDialect) (ora : OracleDialect) (table index : String) :
    (trimSpace table ≠ "" → pg.BuildIndexName table index = "ix_" ++ table ++ "_" ++ index) ∧
    (trimSpace table = "" → pg.BuildIndexName table index = index) ∧
    my.BuildIndexName table index = index ∧
    ss.BuildIndexName table index = index ∧
    ora.BuildIndexName table index = index := by
  refine ⟨fun h => ?_, fun h => ?_, rfl, rfl, rfl⟩
  · simp [PostgresDialect.BuildIndexName, h]
  · simp [PostgresDialect.BuildIndexName, h]

/-- Witness for C6 at the non-blank table "posts" and the whitespace-only
table "  ". -/
theorem buildIndexName_per_dialect_witness :
    PostgresDialect.BuildIndexName ⟨""⟩ "posts" "user" = "ix_posts_user" ∧
    PostgresDialect.BuildIndexName ⟨""⟩ "  " "user" = "user" :=
  ⟨(buildIndexName_per_dialect ⟨""⟩ ⟨"", ""⟩ ⟨""⟩ ⟨⟩ "posts" "user").1 (by decide),
   (buildIndexName_per_dialect ⟨""⟩ ⟨"", ""⟩ ⟨""⟩ ⟨⟩ "  " "user").2.1 (by decide)⟩

/-- C7: a string-typed column with maxsize below 1 falls back to the dialect
default type: varchar(255) under SQLite, PostgreSQL and MySQL;
nvarchar(max) under SQL Server except Version "2005" which gives
nvarchar(255); and text under Oracle. -/
theorem toSqlType_string_default (sq : SqliteDialect) (pg : PostgresDialect)
    (my : MySQLDialect) (ss : SqlServerDialect) (ora : OracleDialect)
    (m : Int) (b : Bool) (h : m < 1) :
    sq.ToSqlType GoType.string m b = "varchar(255)" ∧
    pg.ToSqlType GoType.string m b = "varchar(255)" ∧
    my.ToSqlType GoType.string m b = "varchar(255)" ∧
    (ss.Version = "2005" → ss.ToSqlType GoType.string m b = "nvarchar(255)") ∧
    (ss.Version ≠ "2005" → ss.ToSqlType GoType.string m b = "nvarchar(max)") ∧
    ora.ToSqlType GoType.string m b = "text" := by
  have e1 : sq.ToSqlType GoType.string m b =
      "varchar(" ++ toString (if m < 1 then (255 : Int) else m) ++ ")" := rfl
  have e2 : pg.ToSqlType GoType.string m b =
      "varchar(" ++ toString (if m < 1 then (255 : Int) else m) ++ ")" := rfl
  have e3 : my.ToSqlType GoType.string m b =
      "varchar(" ++ toString (if m < 1 then (255 : Int) else m) ++ ")" := rfl
  have e4 : ss.ToSqlType GoType.string m b =
      (if m < 1 then
        (if ss.Version = "2005" then "nvarchar(255)" else "nvarchar(max)")
      else "nvarchar(" ++ toString m ++ ")") := rfl
  have e5 : ora.ToSqlType GoType.string m b =
      (if m > 0 then "varchar(" ++ toString m ++ ")" else "text") := rfl
  have hng : ¬ (m > 0) := by omega
  refine ⟨?_, ?_, ?_, fun hv => ?_, fun hv => ?_, ?_⟩
  · rw [e1, if_pos h]; decide
  · rw [e2, if_pos h]; decide
  · rw [e3, if_pos h]; decide
  · rw [e4, if_pos h, if_pos hv]
  · rw [e4, if_pos h, if_neg hv]
  · rw [e5, if_neg hng]

/-- Witness for C7 at maxsize 0, exercising both SQL Server versions. -/
theorem toSqlType_string_default_witness :
    SqliteDialect.ToSqlType ⟨""⟩ GoType.string 0 false = "varchar(255)" ∧
    SqlServerDialect.ToSqlType ⟨"2005"⟩ GoType.string 0 false = "nvarchar(255)" ∧
    SqlServerDialect.ToSqlType ⟨""⟩ GoType.string 0 false = "nvarchar(max)" ∧
    OracleDialect.ToSqlType ⟨⟩ GoType.string 0 false = "text" :=
  ⟨(toSqlType_string_default ⟨""⟩ ⟨""⟩ ⟨"", ""⟩ ⟨"2005"⟩ ⟨⟩ 0 false (by decide)).1,
   (toSqlType_string_default ⟨""⟩ ⟨""⟩ ⟨"", ""⟩ ⟨"2005"⟩ ⟨⟩ 0 false (by decide)).2.2.2.1 rfl,
   (toSqlType_string_default ⟨""⟩ ⟨""⟩ ⟨"", ""⟩ ⟨""⟩ ⟨⟩ 0 false (by decide)).2.2.2.2.1 (by decide),
   (toSqlType_string_default ⟨""⟩ ⟨""⟩ ⟨"", ""⟩ ⟨""⟩ ⟨⟩ 0 false (by decide)).2.2.2.2.2⟩

/-- C8: SQLite, MySQL and SQL Server capture the autoincrement key through
`standardInsertAutoIncr` (execute the INSERT, propagate the executor's
error unchanged, otherwise read the executor's last-inserted-id), while
PostgreSQL appends " returning " and the column name to the INSERT and
scans the query result into the target: a query error is returned
unchanged, zero rows is an error, exactly one row succeeds with the first
value assigned, and more than one row is an error. -/
theorem autoIncr_capture_strategy (sq : SqliteDialect) (my : MySQLDialect)
    (ss : SqlServerDialect) (pg : PostgresDialect) (exec : SqlExecutor)
    (q : Except String Rows) (x : Except String SqlResult)
    (e insertSql : String) (res : SqlResult) (col : ColumnMap)
    (v w : Int) (rest : List Int) (er : Option String) :
    sq.InsertAutoIncr exec insertSql = standardInsertAutoIncr exec insertSql ∧
    my.InsertAutoIncr exec insertSql = standardInsertAutoIncr exec insertSql ∧
    ss.InsertAutoIncr exec insertSql = standardInsertAutoIncr exec insertSql ∧
    standardInsertAutoIncr ⟨Except.error e, q⟩ insertSql = Except.error e ∧
    standardInsertAutoIncr ⟨Except.ok res, q⟩ insertSql = res.lastInsertId ∧
    pg.AutoIncrInsertSuffix col = " returning " ++ col.ColumnName ∧
    pg.InsertAutoIncrToTarget ⟨x, Except.error e⟩ insertSql = Except.error e ∧
    pg.InsertAutoIncrToTarget ⟨x, Except.ok ⟨[], er⟩⟩ insertSql =
      Except.error ("No serial value returned for insert: " ++ insertSql ++
        " Encountered error: " ++ errString er) ∧
    pg.InsertAutoIncrToTarget ⟨x, Except.ok ⟨[v], none⟩⟩ insertSql = Except.ok v ∧
    pg.InsertAutoIncrToTarget ⟨x, Except.ok ⟨v :: w :: rest, er⟩⟩ insertSql =
      Except.error ("more than two serial value returned for insert: " ++ insertSql) :=
  ⟨rfl, rfl, rfl, rfl, rfl, rfl, rfl, rfl, rfl, rfl⟩

/-- C9: MySQLDialect.CreateTableSuffix aborts with a message naming the
missing field whenever Engine or Encoding is empty, and returns the
" engine=<Engine> charset=<Encoding>" clause when both are non-empty. -/
theorem mysql_createTableSuffix_spec (eng enc : String)
    (heng : eng ≠ "") (henc : enc ≠ "") :
    MySQLDialect.CreateTableSuffix ⟨eng, enc⟩ =
      Except.ok (" engine=" ++ eng ++ " charset=" ++ enc) ∧
    MySQLDialect.CreateTableSuffix ⟨"", enc⟩ =
      Except.error "gorp - undefined MySQLDialect.Engine. Check that your MySQLDialect was correctly initialized when declared." ∧
    MySQLDialect.CreateTableSuffix ⟨eng, ""⟩ =
      Except.error "gorp - undefined MySQLDialect.Encoding. Check that your MySQLDialect was correctly initialized when declared." ∧
    MySQLDialect.CreateTableSuffix ⟨"", ""⟩ =
      Except.error "gorp - undefined MySQLDialect.Engine, MySQLDialect.Encoding. Check that your MySQLDialect was correctly initialized when declared." := by
  refine ⟨?_, ?_, ?_, rfl⟩
  · simp [MySQLDialect.CreateTableSuffix, heng, henc]
  · simp [MySQLDialect.CreateTableSuffix, henc]
  · simp [MySQLDialect.CreateTableSuffix, heng]

/-- Witness for C9 with the non-empty engine "InnoDB" and encoding "UTF8". -/
theorem mysql_createTableSuffix_spec_witness :
    MySQLDialect.CreateTableSuffix ⟨"InnoDB", "UTF8"⟩ =
      Except.ok " engine=InnoDB charset=UTF8" ∧
    MySQLDialect.CreateTableSuffix ⟨"", "UTF8"⟩ =
      Except.error "gorp - undefined MySQLDialect.Engine. Check that your MySQLDialect was correctly initialized when declared." :=
  ⟨(mysql_createTableSuffix_spec "InnoDB" "UTF8" (by decide) (by decide)).1,
   (mysql_createTableSuffix_spec "InnoDB" "UTF8" (by decide) (by decide)).2.1⟩

end Gorp
